import Mathlib

/-!
Shallow embedding of the IAM service's authentication, session and RBAC
core (app/auth/models.py, app/auth/routes_api.py, app/auth/routes_login.py,
app/__init__.py), with the relational store made explicit as a `DB` value
and the raw account-status query made explicit as a `FetchResult` input
(a row, no row, or a raised exception).  The third-party pieces the code
delegates to are embedded by their documented contracts: werkzeug's
password hashing is an abstract injective hash, and flask_login's
`login_user` / `logout_user` / `login_required` / user loader are state
transitions on an `Option Nat` cookie session (`login_user` stores the
user's id; `login_required` admits a request exactly when the loaded
current user's `is_authenticated` property holds).
-/

/-- A row of `iam_role` (models.py, class IAMRole): only the columns the
authentication core reads. -/
structure IAMRole where
  role_id : Nat
  role_name : String
deriving Repr, DecidableEq

/-- A row of `iam_user_account` (models.py, class IAMUserAccount) as the ORM
materialises it, with the `roles` relationship loaded (lazy="joined").
`is_active` / `is_locked` are the in-memory column values, which the
handlers deliberately do not consult (they re-read status via raw SQL). -/
structure IAMUserAccount where
  user_id : Nat
  username : String
  email : String
  display_name : String
  auth_provider : String
  password_hash : Option String
  is_active : Bool
  is_locked : Bool
  last_login_at : Option Nat
  roles : List IAMRole
deriving Repr, DecidableEq

/-- A row of `iam_auth_log` (models.py, class IAMAuthLog): the columns the
handlers write (`ip_address` / `user_agent` are request metadata, constant
per request, and omitted). -/
structure AuthLogRow where
  user_id : Option Nat
  event_type : String
  details : String
deriving Repr, DecidableEq

/-- A row of `iam_auth_session` (models.py, class IAMAuthSession):
`logout_time = none` means the session is active. -/
structure AuthSessionRow where
  session_id : String
  user_id : Nat
  login_time : Nat
  logout_time : Option Nat
deriving Repr, DecidableEq

/-- The result row of the raw status query
`SELECT CAST(is_active AS UNSIGNED), CAST(is_locked AS UNSIGNED) FROM
iam_user_account WHERE user_id = :user_id`.  Components are `Option Bool`
because the Python code guards each with `is not None`. -/
structure StatusRow where
  is_active : Option Bool
  is_locked : Option Bool
deriving Repr, DecidableEq

/-- Outcome of a `db.session.execute(...).fetchone()` call: a row, no row
(`fetchone()` returned `None`), or a raised exception (driver/connection
failure). -/
inductive FetchResult (α : Type) where
  | row (r : α)
  | noRow
  | raised
deriving Repr, DecidableEq

/-- The relational store state visible to the authentication core. -/
structure DB where
  users : List IAMUserAccount
  auth_logs : List AuthLogRow
  sessions : List AuthSessionRow
deriving Repr, DecidableEq

/-- Application state: the store plus the client-visible cookie session
that flask_login manages (`some uid` after `login_user`, `none` after
`logout_user` or when no valid cookie is presented). -/
structure AppState where
  db : DB
  sess : Option Nat
deriving Repr, DecidableEq

/-- Abstract model of werkzeug's `generate_password_hash`: an injective
encoding of the raw password into a hash string. -/
def generate_password_hash (raw : String) : String :=
  "pbkdf2$" ++ raw

/-- Abstract model of werkzeug's `check_password_hash`: accepts exactly the
password the hash was generated from. -/
def check_password_hash (h raw : String) : Bool :=
  h == generate_password_hash raw

/-- Python truthiness of an optional string (`None` and `""` are falsy). -/
def truthy : Option String → Bool
  | none => false
  | some s => !(s == "")

/-- models.py `IAMUserAccount.verify_password`: `if not self.password_hash:
return False`, else delegate to `check_password_hash`. -/
def IAMUserAccount.verify_password (u : IAMUserAccount) (raw : String) : Bool :=
  match u.password_hash with
  | none => false
  | some h => if h == "" then false else check_password_hash h raw

/-- models.py `IAMUserAccount.has_role`: `any(r.role_name == role_name for r
in self.roles)`. -/
def IAMUserAccount.has_role (u : IAMUserAccount) (role_name : String) : Bool :=
  u.roles.any (fun r => r.role_name == role_name)

/-- models.py `IAMUserAccount.has_any_role`: membership of any requested
name in the set of the user's role names. -/
def IAMUserAccount.has_any_role (u : IAMUserAccount) (role_names : List String) : Bool :=
  role_names.any (fun n => (u.roles.map (fun r => r.role_name)).contains n)

/-- models.py `IAMUserAccount.is_authenticated`: a constant-True property. -/
def IAMUserAccount.is_authenticated (_ : IAMUserAccount) : Bool :=
  true

/-- `IAMUserAccount.query.filter_by(username=...).first()`. -/
def queryUserByUsername (db : DB) (username : String) : Option IAMUserAccount :=
  db.users.find? (fun u => u.username == username)

/-- `IAMUserAccount.query.get(user_id)`. -/
def queryUserById (db : DB) (uid : Nat) : Option IAMUserAccount :=
  db.users.find? (fun u => u.user_id == uid)

/-- The shared row-decoding logic of routes_api.py lines 59-62 and
models.py lines 107-111: `bool(result[i]) if result[i] is not None else
default`, then `active and not locked`. -/
def accountActiveFromRow (r : StatusRow) : Bool :=
  let active_val := match r.is_active with | some b => b | none => true
  let locked_val := match r.is_locked with | some b => b | none => false
  active_val && !locked_val

/-- models.py `IAMUserAccount.is_active_account` (lines 96-116), as a
function of the raw status query's outcome: decode the row when present,
default to active when no row is found, and default to active when the
query raises (`except Exception: return True`). -/
def is_active_account (fresh : FetchResult StatusRow) : Bool :=
  match fresh with
  | FetchResult.row r => accountActiveFromRow r
  | FetchResult.noRow => true
  | FetchResult.raised => true

/-- models.py `IAMUserAccount.is_active` (the flask_login hook): delegates
to `is_active_account`. -/
def is_active_hook (fresh : FetchResult StatusRow) : Bool :=
  is_active_account fresh

/-- routes_api.py `log_auth_event` (lines 12-26): append one audit row,
with the Python default details string when none is supplied; the whole
body is wrapped in `try/except: pass`, so when the write fails
(`logWriteOk = false`) the log is unchanged and no error escapes. -/
def log_auth_event (logs : List AuthLogRow) (logWriteOk : Bool)
    (event_type : String) (user_id : Option Nat) (success : Bool)
    (details : Option String) : List AuthLogRow :=
  if logWriteOk then
    logs ++ [{ user_id := user_id, event_type := event_type,
               details := details.getD
                 ("Event: " ++ event_type ++ ", Success: "
                   ++ (if success then "True" else "False")) }]
  else
    logs

/-- app/__init__.py `load_user` (lines 38-41): look the user up by id with
no filtering on account status. -/
def load_user (db : DB) (uid : Nat) : Option IAMUserAccount :=
  queryUserById db uid

/-- flask_login's current-user resolution: read the id from the cookie
session and pass it to the registered user loader; no session or no loaded
user means the anonymous user. -/
def currentUser (db : DB) (sess : Option Nat) : Option IAMUserAccount :=
  match sess with
  | none => none
  | some uid => load_user db uid

/-- The JSON body of `POST /api/auth/login`: the two fields `api_login`
reads via `data.get(...)` (`none` when the key is absent). -/
structure LoginRequestBody where
  username : Option String
  password : Option String
deriving Repr, DecidableEq

/-- The distinct responses `routes_api.py` can produce on the three auth
endpoints.  `unauthenticated` is flask_login's `login_required` rejection
(401, or a redirect to the configured login view - in either case the
request never reaches the handler). -/
inductive ApiResponse where
  | badRequest (message : String)
  | invalidCredentials
  | accountDisabled
  | loginSuccess (user_id : Nat) (username email display_name : String)
      (roles : List String) (auth_provider : String)
  | verifySuccess (user_id : Nat) (username email display_name : String)
      (roles : List String) (auth_provider : String)
  | logoutSuccess
  | unauthenticated
  | serverError
deriving Repr, DecidableEq

/-- The HTTP status code attached to each response in routes_api.py. -/
def ApiResponse.httpStatus : ApiResponse → Nat
  | ApiResponse.badRequest _ => 400
  | ApiResponse.invalidCredentials => 401
  | ApiResponse.accountDisabled => 403
  | ApiResponse.loginSuccess _ _ _ _ _ _ => 200
  | ApiResponse.verifySuccess _ _ _ _ _ _ => 200
  | ApiResponse.logoutSuccess => 200
  | ApiResponse.unauthenticated => 401
  | ApiResponse.serverError => 500

/-- The `message` field of the JSON body, when the response carries one. -/
def ApiResponse.bodyMessage : ApiResponse → Option String
  | ApiResponse.badRequest m => some m
  | ApiResponse.invalidCredentials => some "Invalid credentials"
  | ApiResponse.accountDisabled => some "Account disabled or locked"
  | ApiResponse.logoutSuccess => some "Logged out"
  | ApiResponse.serverError => some "Server error"
  | _ => none

/-- The success tail of `api_login` (routes_api.py lines 70-88):
`login_user(user, remember=True)` stores the user's id in the cookie
session (the `is_active` attribute it consults is the bound method, which
is always truthy, so it never blocks); `last_login_at` is set and
committed; a `login_success` audit row is written; the response carries the
identity and role names.  No `IAMAuthSession` row is inserted anywhere in
this path. -/
def api_login_success (st : AppState) (user : IAMUserAccount)
    (logWriteOk : Bool) (now : Nat) : ApiResponse × AppState :=
  let users' := st.db.users.map (fun u =>
    if u.user_id == user.user_id then { u with last_login_at := some now } else u)
  let logs' := log_auth_event st.db.auth_logs logWriteOk "login_success"
    (some user.user_id) true none
  (ApiResponse.loginSuccess user.user_id user.username user.email
     user.display_name (user.roles.map (fun ro => ro.role_name)) user.auth_provider,
   { db := { users := users', auth_logs := logs', sessions := st.db.sessions },
     sess := some user.user_id })

/-- routes_api.py `api_login` (lines 29-91).  `fresh` is the outcome of the
raw status re-read at lines 54-57; when it raises, the exception is caught
only by the blanket handler at line 90, which returns a generic 500 before
any state was mutated. -/
def api_login (st : AppState) (body : Option LoginRequestBody)
    (fresh : FetchResult StatusRow) (logWriteOk : Bool) (now : Nat) :
    ApiResponse × AppState :=
  match body with
  | none => (ApiResponse.badRequest "Invalid request", st)
  | some data =>
    if !(truthy data.username && truthy data.password) then
      (ApiResponse.badRequest "Username and password required", st)
    else
      let un := data.username.getD ""
      let pw := data.password.getD ""
      match queryUserByUsername st.db un with
      | none =>
        let logs' := log_auth_event st.db.auth_logs logWriteOk "login_failed"
          none false (some ("User not found: " ++ un))
        (ApiResponse.invalidCredentials, { st with db := { st.db with auth_logs := logs' } })
      | some user =>
        if !(user.verify_password pw) then
          let logs' := log_auth_event st.db.auth_logs logWriteOk "login_failed"
            (some user.user_id) false (some "Invalid password")
          (ApiResponse.invalidCredentials, { st with db := { st.db with auth_logs := logs' } })
        else
          match fresh with
          | FetchResult.raised => (ApiResponse.serverError, st)
          | FetchResult.noRow => api_login_success st user logWriteOk now
          | FetchResult.row r =>
            if accountActiveFromRow r then
              api_login_success st user logWriteOk now
            else
              let logs' := log_auth_event st.db.auth_logs logWriteOk "login_failed"
                (some user.user_id) false (some "Account locked/inactive")
              (ApiResponse.accountDisabled, { st with db := { st.db with auth_logs := logs' } })

/-- routes_api.py `api_verify` (lines 94-111): behind `login_required`,
which admits the request exactly when the loaded current user's
`is_authenticated` property holds; the handler then echoes the loaded
user's identity.  No account-status query occurs on this path. -/
def api_verify (st : AppState) : ApiResponse :=
  match currentUser st.db st.sess with
  | none => ApiResponse.unauthenticated
  | some u =>
    if u.is_authenticated then
      ApiResponse.verifySuccess u.user_id u.username u.email u.display_name
        (u.roles.map (fun ro => ro.role_name)) u.auth_provider
    else
      ApiResponse.unauthenticated

/-- routes_api.py `api_logout` (lines 114-124): behind `login_required`;
`logout_user()` clears the cookie session, a `logout` audit row is
written, and a success body is returned.  No `IAMAuthSession` row is
touched. -/
def api_logout (st : AppState) (logWriteOk : Bool) : ApiResponse × AppState :=
  match currentUser st.db st.sess with
  | none => (ApiResponse.unauthenticated, st)
  | some u =>
    if u.is_authenticated then
      let logs' := log_auth_event st.db.auth_logs logWriteOk "logout"
        (some u.user_id) true none
      (ApiResponse.logoutSuccess,
       { db := { st.db with auth_logs := logs' }, sess := none })
    else
      (ApiResponse.unauthenticated, st)

/-- The outcomes of the form login `login_submit` (routes_login.py): a
redirect back to the login page with a flashed message, a redirect to the
dashboard, or an unhandled exception (the function has no try/except). -/
inductive LoginPageResult where
  | redirectLoginPage (flash : String)
  | redirectDashboard
  | unhandledException
deriving Repr, DecidableEq

/-- The success tail of `login_submit` (routes_login.py lines 51-57):
`login_user(user)`, set `last_login_at`, commit, redirect to the
dashboard.  No audit row and no `IAMAuthSession` row is written. -/
def login_submit_success (st : AppState) (user : IAMUserAccount) (now : Nat) :
    LoginPageResult × AppState :=
  let users' := st.db.users.map (fun u =>
    if u.user_id == user.user_id then { u with last_login_at := some now } else u)
  (LoginPageResult.redirectDashboard,
   { db := { users := users', auth_logs := st.db.auth_logs,
             sessions := st.db.sessions },
     sess := some user.user_id })

/-- routes_login.py `login_submit` (lines 13-57).  A missing form password
is embedded as `""` (both fail verification).  The status re-read at lines
29-32 has no surrounding try/except, so a raised exception propagates out
of the handler. -/
def login_submit (st : AppState) (username password : Option String)
    (fresh : FetchResult StatusRow) (now : Nat) : LoginPageResult × AppState :=
  match username.bind (fun un => queryUserByUsername st.db un) with
  | none => (LoginPageResult.redirectLoginPage "Invalid credentials", st)
  | some user =>
    if !(user.verify_password (password.getD "")) then
      (LoginPageResult.redirectLoginPage "Invalid credentials", st)
    else
      match fresh with
      | FetchResult.raised => (LoginPageResult.unhandledException, st)
      | FetchResult.noRow => login_submit_success st user now
      | FetchResult.row r =>
        if accountActiveFromRow r then
          login_submit_success st user now
        else
          (LoginPageResult.redirectLoginPage "Account disabled / locked", st)

/-- The example user of the spec's scenario: `alice`, active, unlocked,
holding role `admin`, with a local password hash for `"Secr3t!"`. -/
def alice : IAMUserAccount :=
  { user_id := 1, username := "alice", email := "alice@example.com",
    display_name := "Alice", auth_provider := "local",
    password_hash := some (generate_password_hash "Secr3t!"),
    is_active := true, is_locked := false, last_login_at := none,
    roles := [{ role_id := 1, role_name := "admin" }] }

/-- A demo store holding only `alice`, with empty audit log and no
session rows. -/
def demoDB : DB :=
  { users := [alice], auth_logs := [], sessions := [] }

/-- The demo application state before any login. -/
def demoState : AppState :=
  { db := demoDB, sess := none }

/-- The login request body carrying alice's valid credentials. -/
def aliceBody : LoginRequestBody :=
  { username := some "alice", password := some "Secr3t!" }

/-- A status-query outcome reporting the account active and unlocked. -/
def freshOK : FetchResult StatusRow :=
  FetchResult.row { is_active := some true, is_locked := some false }

/-- An active (never logged out) `iam_auth_session` row for alice. -/
def aliceSessionRow : AuthSessionRow :=
  { session_id := "s1", user_id := 1, login_time := 100, logout_time := none }

/-- Application state in which alice is logged in (cookie session set) and
an active `iam_auth_session` row exists for her. -/
def loggedInState : AppState :=
  { db := { users := [alice], auth_logs := [], sessions := [aliceSessionRow] },
    sess := some 1 }

/-- C1 (counterexample): on a fully valid login (alice, correct password,
fresh status active and unlocked) `api_login` returns the 200 success
response, yet the set of `iam_auth_session` rows is empty before AND after
the call - no AuthSession row is created, contradicting the claim that a
successful authenticate creates exactly one new AuthSession row. -/
theorem api_login_success_creates_no_auth_session_row :
    (api_login demoState (some aliceBody) freshOK true 1000).1
      = ApiResponse.loginSuccess 1 "alice" "alice@example.com" "Alice" ["admin"] "local"
    ∧ demoState.db.sessions = []
    ∧ (api_login demoState (some aliceBody) freshOK true 1000).2.db.sessions = [] :=
  ⟨rfl, rfl, rfl⟩

/-- C1 (amended): for every login attempt with a valid (username, password)
pair whose fresh status re-read shows the account active and not locked,
`api_login` succeeds with the 200 response carrying the user's identity and
role names, appends exactly one `login_success` AuthLog row, leaves the
AuthSession table unchanged (no row is created; only the framework cookie
session is established), and sets the user's `last_login_at`. -/
theorem api_login_success_contract (st : AppState) (un pw : String)
    (user : IAMUserAccount) (r : StatusRow) (now : Nat)
    (hun : un ≠ "") (hpw : pw ≠ "")
    (hfind : queryUserByUsername st.db un = some user)
    (hverify : user.verify_password pw = true)
    (hactive : accountActiveFromRow r = true) :
    (api_login st (some { username := some un, password := some pw })
        (FetchResult.row r) true now).1
      = ApiResponse.loginSuccess user.user_id user.username user.email
          user.display_name (user.roles.map (fun ro => ro.role_name)) user.auth_provider
    ∧ (api_login st (some { username := some un, password := some pw })
        (FetchResult.row r) true now).2.db.auth_logs
      = st.db.auth_logs ++ [{ user_id := some user.user_id, event_type := "login_success", details := "Event: login_success, Success: True" }]
    ∧ (api_login st (some { username := some un, password := some pw })
        (FetchResult.row r) true now).2.db.sessions = st.db.sessions
    ∧ (api_login st (some { username := some un, password := some pw })
        (FetchResult.row r) true now).2.sess = some user.user_id
    ∧ ∀ u ∈ (api_login st (some { username := some un, password := some pw })
        (FetchResult.row r) true now).2.db.users,
        u.user_id = user.user_id → u.last_login_at = some now := by
  have hbody : api_login st (some { username := some un, password := some pw })
      (FetchResult.row r) true now = api_login_success st user true now := by
    simp [api_login, truthy, hun, hpw, hfind, hverify, hactive]
  rw [hbody]
  refine ⟨rfl, by simp [api_login_success, log_auth_event], rfl, rfl, ?_⟩
  intro u hu hid
  simp only [api_login_success, List.mem_map] at hu
  obtain ⟨u0, hu0, rfl⟩ := hu
  by_cases h : u0.user_id == user.user_id
  · simp [h]
  · simp [h] at hid ⊢
    exact absurd hid (by simpa using h)

/-- C1 (witness): the contract applied to alice's concrete login. -/
theorem api_login_success_contract_witness :
    ("alice" : String) ≠ ""
    ∧ ("Secr3t!" : String) ≠ ""
    ∧ queryUserByUsername demoState.db "alice" = some alice
    ∧ alice.verify_password "Secr3t!" = true
    ∧ accountActiveFromRow { is_active := some true, is_locked := some false } = true
    ∧ (api_login demoState (some { username := some "alice", password := some "Secr3t!" })
        (FetchResult.row { is_active := some true, is_locked := some false }) true 1000).1
      = ApiResponse.loginSuccess alice.user_id alice.username alice.email
          alice.display_name (alice.roles.map (fun ro => ro.role_name)) alice.auth_provider := by
  refine ⟨by decide, by decide, by rfl, by rfl, by rfl, ?_⟩
  exact (api_login_success_contract demoState "alice" "Secr3t!" alice
    { is_active := some true, is_locked := some false } 1000
    (by decide) (by decide) (by rfl) (by rfl) (by rfl)).1

/-- C2 (code bug): alice holds an established session (cookie session set,
active `iam_auth_session` row present) and her stored row has been disabled
(`is_active = false`) and locked (`is_locked = true`); the next
`GET /api/auth/verify` nevertheless succeeds with 200 `authenticated:true`,
because `login_required` consults only the constant-True
`is_authenticated` property and the user loader fetches by id with no
status filter - the fresh-status machinery (`is_active_account`, the
`is_active` hook) is never invoked on the verify path, although the code's
own comments mark it as the flask_login hook intended to do exactly
that. -/
theorem api_verify_accepts_disabled_user :
    api_verify { db := { users := [{ alice with is_active := false, is_locked := true }],
                         auth_logs := [], sessions := [aliceSessionRow] },
                 sess := some 1 }
      = ApiResponse.verifySuccess 1 "alice" "alice@example.com" "Alice" ["admin"] "local"
    ∧ (ApiResponse.verifySuccess 1 "alice" "alice@example.com" "Alice"
        ["admin"] "local").httpStatus = 200 :=
  ⟨rfl, rfl⟩

/-- C3 (counterexample): a raised exception in the fresh account-status
read is not surfaced as any distinct error: `is_active_account` swallows it
and reports the account eligible (the successful default), and `api_login`
maps it to the generic 500 handler rather than a dedicated
StoreUnavailable variant. -/
theorem status_read_failure_not_distinct_error :
    is_active_account FetchResult.raised = true
    ∧ (api_login demoState (some aliceBody) FetchResult.raised true 1000).1
      = ApiResponse.serverError
    ∧ ApiResponse.serverError.httpStatus = 500 :=
  ⟨rfl, rfl, rfl⟩

/-- C3 (amended): a failure of the fresh account-status read is never
surfaced as a distinct StoreUnavailable error: in
`is_active` / `is_active_account` it is swallowed and the account defaults
to eligible; in `api_login` (after valid credentials) it is caught by the
blanket handler and returned as a generic 500 server error with no state
change; in `login_submit` it escapes as an unhandled exception. -/
theorem status_read_failure_behavior (st : AppState) (un pw : String)
    (user : IAMUserAccount) (logWriteOk : Bool) (now : Nat)
    (hun : un ≠ "") (hpw : pw ≠ "")
    (hfind : queryUserByUsername st.db un = some user)
    (hverify : user.verify_password pw = true) :
    is_active_account FetchResult.raised = true
    ∧ api_login st (some { username := some un, password := some pw })
        FetchResult.raised logWriteOk now = (ApiResponse.serverError, st)
    ∧ ApiResponse.serverError.httpStatus = 500
    ∧ login_submit st (some un) (some pw) FetchResult.raised now
        = (LoginPageResult.unhandledException, st) := by
  refine ⟨rfl, ?_, rfl, ?_⟩
  · simp [api_login, truthy, hun, hpw, hfind, hverify]
  · simp [login_submit, hfind, hverify]

/-- C3 (witness): the store-failure behavior at alice's concrete login. -/
theorem status_read_failure_behavior_witness :
    ("alice" : String) ≠ ""
    ∧ ("Secr3t!" : String) ≠ ""
    ∧ queryUserByUsername demoState.db "alice" = some alice
    ∧ alice.verify_password "Secr3t!" = true
    ∧ api_login demoState (some { username := some "alice", password := some "Secr3t!" })
        FetchResult.raised true 77 = (ApiResponse.serverError, demoState) := by
  refine ⟨by decide, by decide, by rfl, by rfl, ?_⟩
  exact (status_read_failure_behavior demoState "alice" "Secr3t!" alice true 77
    (by decide) (by decide) (by rfl) (by rfl)).2.1

/-- C4 (counterexample): with valid credentials and the fresh status query
raising an exception, `api_login` does NOT proceed to establish the login:
it returns the generic 500 server error and leaves the cookie session
unset, contradicting the claim that an exception in the status re-read is
treated fail-open by authenticate. -/
theorem api_login_status_exception_returns_500 :
    (api_login demoState (some aliceBody) FetchResult.raised true 1000).1
      ≠ ApiResponse.loginSuccess 1 "alice" "alice@example.com" "Alice" ["admin"] "local"
    ∧ (api_login demoState (some aliceBody) FetchResult.raised true 1000).2.sess = none := by
  refine ⟨?_, rfl⟩
  decide

/-- C4 (amended): when the fresh account-status query returns no row, the
account is treated as active and unlocked (fail-open) in every path:
`api_login` and `login_submit` proceed to establish the login and
`is_active_account` reports the account eligible; `is_active_account` also
reports eligible when the query raises; but when the status query raises
inside `api_login`, the login fails with the generic 500 handler (leaving
the state unchanged) instead of proceeding. -/
theorem status_fail_open_behavior (st : AppState) (un pw : String)
    (user : IAMUserAccount) (now : Nat)
    (hun : un ≠ "") (hpw : pw ≠ "")
    (hfind : queryUserByUsername st.db un = some user)
    (hverify : user.verify_password pw = true) :
    is_active_account FetchResult.noRow = true
    ∧ (api_login st (some { username := some un, password := some pw })
        FetchResult.noRow true now).1
      = ApiResponse.loginSuccess user.user_id user.username user.email
          user.display_name (user.roles.map (fun ro => ro.role_name)) user.auth_provider
    ∧ (api_login st (some { username := some un, password := some pw })
        FetchResult.noRow true now).2.sess = some user.user_id
    ∧ (login_submit st (some un) (some pw) FetchResult.noRow now).1
      = LoginPageResult.redirectDashboard
    ∧ is_active_account FetchResult.raised = true
    ∧ (api_login st (some { username := some un, password := some pw })
        FetchResult.raised true now).1 = ApiResponse.serverError
    ∧ (api_login st (some { username := some un, password := some pw })
        FetchResult.raised true now).2 = st := by
  refine ⟨rfl, ?_, ?_, ?_, rfl, ?_, ?_⟩
  · simp [api_login, truthy, hun, hpw, hfind, hverify, api_login_success]
  · simp [api_login, truthy, hun, hpw, hfind, hverify, api_login_success]
  · simp [login_submit, hfind, hverify, login_submit_success]
  · simp [api_login, truthy, hun, hpw, hfind, hverify]
  · simp [api_login, truthy, hun, hpw, hfind, hverify]

/-- C4 (witness): the fail-open behavior at alice's concrete login. -/
theorem status_fail_open_behavior_witness :
    ("alice" : String) ≠ ""
    ∧ ("Secr3t!" : String) ≠ ""
    ∧ queryUserByUsername demoState.db "alice" = some alice
    ∧ alice.verify_password "Secr3t!" = true
    ∧ (api_login demoState (some { username := some "alice", password := some "Secr3t!" })
        FetchResult.noRow true 42).1
      = ApiResponse.loginSuccess alice.user_id alice.username alice.email
          alice.display_name (alice.roles.map (fun ro => ro.role_name)) alice.auth_provider := by
  refine ⟨by decide, by decide, by rfl, by rfl, ?_⟩
  exact (status_fail_open_behavior demoState "alice" "Secr3t!" alice 42
    (by decide) (by decide) (by rfl) (by rfl)).2.1

/-- C5: every authenticate attempt with an unknown username fails with
`InvalidCredentials` (HTTP 401) and appends exactly one `login_failed`
AuthLog row without a user id; a known user whose password fails
verification gets the same 401 with exactly one `login_failed` row carrying
the user id; an account with no stored password hash (SSO-only) always
fails verification; in all these cases the rest of the state - including
the AuthSession table - is unchanged (the full result state is pinned by
the equations). -/
theorem api_login_invalid_credentials_contract (st : AppState) (un pw : String)
    (fresh : FetchResult StatusRow) (now : Nat)
    (hun : un ≠ "") (hpw : pw ≠ "") :
    (queryUserByUsername st.db un = none →
      api_login st (some { username := some un, password := some pw }) fresh true now
        = (ApiResponse.invalidCredentials,
           { st with db := { st.db with auth_logs := st.db.auth_logs ++ [{ user_id := none, event_type := "login_failed", details := "User not found: " ++ un }] } }))
    ∧ (∀ user : IAMUserAccount, queryUserByUsername st.db un = some user →
        user.verify_password pw = false →
        api_login st (some { username := some un, password := some pw }) fresh true now
          = (ApiResponse.invalidCredentials,
             { st with db := { st.db with auth_logs := st.db.auth_logs ++ [{ user_id := some user.user_id, event_type := "login_failed", details := "Invalid password" }] } }))
    ∧ (∀ (u : IAMUserAccount) (raw : String), u.password_hash = none →
        u.verify_password raw = false)
    ∧ ApiResponse.invalidCredentials.httpStatus = 401 := by
  refine ⟨?_, ?_, ?_, rfl⟩
  · intro hnone
    simp [api_login, truthy, hun, hpw, hnone, log_auth_event]
  · intro user hfind hbad
    simp [api_login, truthy, hun, hpw, hfind, hbad, log_auth_event]
  · intro u raw hnone
    simp [IAMUserAccount.verify_password, hnone]

/-- C5 (witness): the invalid-credentials contract applied to an unknown
username against the demo store. -/
theorem api_login_invalid_credentials_contract_witness :
    ("bob" : String) ≠ ""
    ∧ ("pw" : String) ≠ ""
    ∧ api_login demoState (some { username := some "bob", password := some "pw" }) freshOK true 5
      = (ApiResponse.invalidCredentials,
         { demoState with db := { demoState.db with auth_logs := demoState.db.auth_logs ++ [{ user_id := none, event_type := "login_failed", details := "User not found: bob" }] } }) := by
  refine ⟨by decide, by decide, ?_⟩
  exact (api_login_invalid_credentials_contract demoState "bob" "pw" freshOK 5
    (by decide) (by decide)).1 (by rfl)

/-- C6: when the credentials are valid but the fresh status row decodes to
ineligible (`NOT (is_active AND NOT is_locked)`), `api_login` fails with
`AccountDisabled` (HTTP 403) and appends exactly one `login_failed` AuthLog
row with details "Account locked/inactive"; and the decision depends only
on the fresh row, not on the in-memory user object: the hypotheses place
no constraint on the looked-up user's `is_active` / `is_locked` fields, and
any other state whose lookup returns a user with the same id and password
hash - whatever its stored flags - receives the same 403. -/
theorem api_login_account_disabled_contract (st : AppState) (un pw : String)
    (user : IAMUserAccount) (r : StatusRow) (now : Nat)
    (hun : un ≠ "") (hpw : pw ≠ "")
    (hfind : queryUserByUsername st.db un = some user)
    (hverify : user.verify_password pw = true)
    (hineligible : accountActiveFromRow r = false) :
    api_login st (some { username := some un, password := some pw })
        (FetchResult.row r) true now
      = (ApiResponse.accountDisabled,
         { st with db := { st.db with auth_logs := st.db.auth_logs ++ [{ user_id := some user.user_id, event_type := "login_failed", details := "Account locked/inactive" }] } })
    ∧ ApiResponse.accountDisabled.httpStatus = 403
    ∧ ∀ (st2 : AppState) (user2 : IAMUserAccount),
        queryUserByUsername st2.db un = some user2 →
        user2.user_id = user.user_id →
        user2.password_hash = user.password_hash →
        (api_login st2 (some { username := some un, password := some pw })
           (FetchResult.row r) true now).1 = ApiResponse.accountDisabled := by
  refine ⟨?_, rfl, ?_⟩
  · simp [api_login, truthy, hun, hpw, hfind, hverify, hineligible, log_auth_event]
  · intro st2 user2 hfind2 hid hhash
    have hver2 : user2.verify_password pw = user.verify_password pw := by
      unfold IAMUserAccount.verify_password
      rw [hhash]
    rw [hverify] at hver2
    simp [api_login, truthy, hun, hpw, hfind2, hver2, hineligible]

/-- C6 (witness): the disabled-account contract at alice's concrete login
with a fresh row reporting the account inactive. -/
theorem api_login_account_disabled_contract_witness :
    ("alice" : String) ≠ ""
    ∧ ("Secr3t!" : String) ≠ ""
    ∧ queryUserByUsername demoState.db "alice" = some alice
    ∧ alice.verify_password "Secr3t!" = true
    ∧ accountActiveFromRow { is_active := some false, is_locked := some false } = false
    ∧ api_login demoState (some { username := some "alice", password := some "Secr3t!" })
        (FetchResult.row { is_active := some false, is_locked := some false }) true 9
      = (ApiResponse.accountDisabled,
         { demoState with db := { demoState.db with auth_logs := demoState.db.auth_logs ++ [{ user_id := some alice.user_id, event_type := "login_failed", details := "Account locked/inactive" }] } }) := by
  refine ⟨by decide, by decide, by rfl, by rfl, by rfl, ?_⟩
  exact (api_login_account_disabled_contract demoState "alice" "Secr3t!" alice
    { is_active := some false, is_locked := some false } 9
    (by decide) (by decide) (by rfl) (by rfl) (by rfl)).1

/-- C7 (counterexample): logging alice out of an established session
returns success but leaves the active `iam_auth_session` row untouched
(its `logout_time` is still null), and a second logout on the now-ended
session is rejected by `login_required` as unauthenticated instead of
being an idempotent no-op success. -/
theorem api_logout_leaves_session_rows_and_rejects_repeat :
    (api_logout loggedInState true).1 = ApiResponse.logoutSuccess
    ∧ (api_logout loggedInState true).2.db.sessions
      = [{ session_id := "s1", user_id := 1, login_time := 100, logout_time := none }]
    ∧ (api_logout (api_logout loggedInState true).2 true).1
      = ApiResponse.unauthenticated :=
  ⟨rfl, rfl, rfl⟩

/-- C7 (amended): for every logout call on an established session,
`api_logout` clears the client cookie session and appends one `logout`
AuthLog row, but never sets `logout_time` on any AuthSession row (the
session table is returned unchanged); and a logout call without an
established session is rejected by `login_required` as unauthenticated
rather than succeeding as a no-op. -/
theorem api_logout_contract (st : AppState) (u : IAMUserAccount)
    (hcur : currentUser st.db st.sess = some u) :
    api_logout st true
      = (ApiResponse.logoutSuccess,
         { db := { st.db with auth_logs := st.db.auth_logs ++ [{ user_id := some u.user_id, event_type := "logout", details := "Event: logout, Success: True" }] },
           sess := none })
    ∧ (api_logout st true).2.db.sessions = st.db.sessions
    ∧ ∀ st2 : AppState, currentUser st2.db st2.sess = none →
        api_logout st2 true = (ApiResponse.unauthenticated, st2) := by
  refine ⟨?_, ?_, ?_⟩
  · simp [api_logout, hcur, IAMUserAccount.is_authenticated, log_auth_event]
  · simp [api_logout, hcur, IAMUserAccount.is_authenticated, log_auth_event]
  · intro st2 h2
    simp [api_logout, h2]

/-- C7 (witness): the logout contract applied to alice's logged-in state. -/
theorem api_logout_contract_witness :
    currentUser loggedInState.db loggedInState.sess = some alice
    ∧ (api_logout loggedInState true).2.db.sessions = loggedInState.db.sessions := by
  refine ⟨by rfl, ?_⟩
  exact (api_logout_contract loggedInState alice (by rfl)).2.1

/-- C8: the failure responses for an unknown username and for a known
username with a wrong password are literally the same value - the same
`InvalidCredentials` response with HTTP status 401 and body message
"Invalid credentials" - for any two states, bodies, status fetches, log
outcomes and clock values, so a caller cannot distinguish the two causes;
and `AccountDisabled` can only ever be produced after the username
resolved to a user whose password verified successfully. -/
theorem login_error_indistinguishability (st1 st2 : AppState)
    (un1 pw1 un2 pw2 : String) (f1 f2 : FetchResult StatusRow)
    (k1 k2 : Bool) (n1 n2 : Nat) (user2 : IAMUserAccount)
    (h1 : un1 ≠ "") (h2 : pw1 ≠ "") (h3 : un2 ≠ "") (h4 : pw2 ≠ "")
    (hunknown : queryUserByUsername st1.db un1 = none)
    (hfound : queryUserByUsername st2.db un2 = some user2)
    (hwrong : user2.verify_password pw2 = false) :
    (api_login st1 (some { username := some un1, password := some pw1 }) f1 k1 n1).1
      = (api_login st2 (some { username := some un2, password := some pw2 }) f2 k2 n2).1
    ∧ (api_login st1 (some { username := some un1, password := some pw1 }) f1 k1 n1).1
      = ApiResponse.invalidCredentials
    ∧ ApiResponse.invalidCredentials.httpStatus = 401
    ∧ ApiResponse.invalidCredentials.bodyMessage = some "Invalid credentials"
    ∧ ∀ (st : AppState) (body : Option LoginRequestBody)
        (fr : FetchResult StatusRow) (k : Bool) (n : Nat),
        (api_login st body fr k n).1 = ApiResponse.accountDisabled →
        ∃ (un pw : String) (user : IAMUserAccount),
          body = some { username := some un, password := some pw }
          ∧ queryUserByUsername st.db un = some user
          ∧ user.verify_password pw = true := by
  have e1 : (api_login st1 (some { username := some un1, password := some pw1 }) f1 k1 n1).1
      = ApiResponse.invalidCredentials := by
    simp [api_login, truthy, h1, h2, hunknown]
  have e2 : (api_login st2 (some { username := some un2, password := some pw2 }) f2 k2 n2).1
      = ApiResponse.invalidCredentials := by
    simp [api_login, truthy, h3, h4, hfound, hwrong]
  refine ⟨e1.trans e2.symm, e1, rfl, rfl, ?_⟩
  intro st body fr k n hdis
  cases body with
  | none => simp [api_login] at hdis
  | some data =>
    by_cases hg : (!(truthy data.username && truthy data.password)) = true
    · simp [api_login, hg] at hdis
    · have hgu : truthy data.username = true ∧ truthy data.password = true := by
        simpa using hg
      obtain ⟨hu, hp⟩ := hgu
      obtain ⟨un, hun⟩ : ∃ s, data.username = some s := by
        cases hdu : data.username with
        | none => rw [hdu] at hu; simp [truthy] at hu
        | some s => exact ⟨s, rfl⟩
      obtain ⟨pw, hpw⟩ : ∃ s, data.password = some s := by
        cases hdp : data.password with
        | none => rw [hdp] at hp; simp [truthy] at hp
        | some s => exact ⟨s, rfl⟩
      cases hfind : queryUserByUsername st.db (data.username.getD "") with
      | none => simp [api_login, hg, hfind] at hdis
      | some user =>
        by_cases hv : (!(user.verify_password (data.password.getD ""))) = true
        · simp [api_login, hg, hfind, hv] at hdis
        · refine ⟨un, pw, user, ?_, ?_, ?_⟩
          · cases data
            simp_all
          · rw [hun] at hfind
            simpa using hfind
          · have hv2 : user.verify_password (data.password.getD "") = true := by
              simpa using hv
            rw [hpw] at hv2
            simpa using hv2

/-- C8 (witness): the indistinguishability statement at two concrete failed
logins against the demo store: unknown user "bob" and alice with a wrong
password. -/
theorem login_error_indistinguishability_witness :
    queryUserByUsername demoState.db "bob" = none
    ∧ queryUserByUsername demoState.db "alice" = some alice
    ∧ alice.verify_password "wrong" = false
    ∧ (api_login demoState (some { username := some "bob", password := some "x" }) freshOK true 1).1
      = (api_login demoState (some { username := some "alice", password := some "wrong" }) freshOK false 2).1 := by
  refine ⟨by rfl, by rfl, by rfl, ?_⟩
  exact (login_error_indistinguishability demoState demoState "bob" "x" "alice" "wrong"
    freshOK freshOK true false 1 2 alice
    (by decide) (by decide) (by decide) (by decide) (by rfl) (by rfl) (by rfl)).1

/-- C9: for every state, request body, status-fetch outcome and clock, the
response of `api_login` and `api_logout` and every non-audit component of
the resulting state (users, sessions, cookie session) are identical whether
the audit-log write succeeds or fails - an audit failure is swallowed by
`log_auth_event` and never propagates to the caller or the primary
operation. -/
theorem audit_log_failure_never_propagates (st : AppState)
    (body : Option LoginRequestBody) (fresh : FetchResult StatusRow) (now : Nat) :
    ((api_login st body fresh true now).1 = (api_login st body fresh false now).1)
    ∧ (api_login st body fresh true now).2.db.users
      = (api_login st body fresh false now).2.db.users
    ∧ (api_login st body fresh true now).2.db.sessions
      = (api_login st body fresh false now).2.db.sessions
    ∧ (api_login st body fresh true now).2.sess
      = (api_login st body fresh false now).2.sess
    ∧ ((api_logout st true).1 = (api_logout st false).1)
    ∧ (api_logout st true).2.db.users = (api_logout st false).2.db.users
    ∧ (api_logout st true).2.db.sessions = (api_logout st false).2.db.sessions
    ∧ (api_logout st true).2.sess = (api_logout st false).2.sess := by
  have hout : ((api_logout st true).1 = (api_logout st false).1)
      ∧ (api_logout st true).2.db.users = (api_logout st false).2.db.users
      ∧ (api_logout st true).2.db.sessions = (api_logout st false).2.db.sessions
      ∧ (api_logout st true).2.sess = (api_logout st false).2.sess := by
    cases hcur : currentUser st.db st.sess with
    | none => simp [api_logout, hcur]
    | some u => simp [api_logout, hcur, IAMUserAccount.is_authenticated, log_auth_event]
  have hin : ((api_login st body fresh true now).1 = (api_login st body fresh false now).1)
      ∧ (api_login st body fresh true now).2.db.users
        = (api_login st body fresh false now).2.db.users
      ∧ (api_login st body fresh true now).2.db.sessions
        = (api_login st body fresh false now).2.db.sessions
      ∧ (api_login st body fresh true now).2.sess
        = (api_login st body fresh false now).2.sess := by
    cases body with
    | none => exact ⟨rfl, rfl, rfl, rfl⟩
    | some data =>
      by_cases hg : (!(truthy data.username && truthy data.password)) = true
      · simp [api_login, hg]
      · cases hfind : queryUserByUsername st.db (data.username.getD "") with
        | none => simp [api_login, hg, hfind, log_auth_event]
        | some user =>
          by_cases hv : (!(user.verify_password (data.password.getD ""))) = true
          · simp [api_login, hg, hfind, hv, log_auth_event]
          · cases fresh with
            | raised => simp [api_login, hg, hfind, hv]
            | noRow => simp [api_login, hg, hfind, hv, api_login_success, log_auth_event]
            | row r =>
              by_cases hr : accountActiveFromRow r = true
              · simp [api_login, hg, hfind, hv, hr, api_login_success, log_auth_event]
              · simp [api_login, hg, hfind, hv, hr, log_auth_event]
  exact ⟨hin.1, hin.2.1, hin.2.2.1, hin.2.2.2, hout.1, hout.2.1, hout.2.2.1, hout.2.2.2⟩

/-- C10: `has_role` returns true exactly when the user's loaded assignment
relation contains a role whose name equals the requested name under
case-sensitive string equality; `has_any_role` returns true exactly when
`has_role` holds for at least one requested name; appending an assignment
for a role with the requested name makes `has_role` true, and removing
every assignment with that name makes it false. -/
theorem rbac_role_query_contract (u : IAMUserAccount) (n : String)
    (ns : List String) (r : IAMRole) :
    (u.has_role n = true ↔ ∃ ro ∈ u.roles, ro.role_name = n)
    ∧ (u.has_any_role ns = true ↔ ∃ m ∈ ns, u.has_role m = true)
    ∧ (r.role_name = n →
        IAMUserAccount.has_role { u with roles := u.roles ++ [r] } n = true)
    ∧ IAMUserAccount.has_role
        { u with roles := u.roles.filter (fun ro => !(ro.role_name == n)) } n = false := by
  refine ⟨?_, ?_, ?_, ?_⟩
  · simp [IAMUserAccount.has_role, List.any_eq_true]
  · simp [IAMUserAccount.has_any_role, IAMUserAccount.has_role, List.any_eq_true]
  · intro h
    simp [IAMUserAccount.has_role, h]
  · simp [IAMUserAccount.has_role, List.any_eq_true, List.mem_filter]
